import Mathlib

set_option maxRecDepth 40000

/-!
Verification development for the Flora plant-identifier single-page
application.  The whole in-scope pipeline lives in one React component
(file `next.config.mjs`, second embedded document): image acquisition
(file picker / camera capture) and the identification request/response
normalizer around one generative-AI call.

Shallow embedding conventions:
* The component state (`useState` hooks plus the `videoRef.srcObject`
  device stream) is the structure `AppState`.
* Event handlers become pure functions from `AppState` (plus the
  environment data the browser would hand them: selected files, granted
  stream, canvas blob, service outcome) to `AppState`, paired with an
  `Option Condition` for handlers that contain a `console.error` site —
  the only error-signalling mechanism in the source.
* `JSON.parse` is modelled by an executable JSON reader (`parseJson`)
  over `List Char` with explicit fuel; the fuel `2 * length + 2` strictly
  dominates the number of recursive entries any accepted input can make,
  so fuel exhaustion never masks an accepting run.  JSON numbers are kept
  as their lexemes (the identification claims never inspect numeric
  values).  Strings are decoded including escape sequences and surrogate
  pairs; lone surrogates are rejected (a corner JavaScript tolerates but
  no claim exercises).
* The response clean-up `responseText.replace(/```json\n?|\n?```/g, "").trim()`
  is modelled by `stripFencesAux` (one left-to-right pass, alternative
  order as in the regex, no rescanning of produced text) followed by
  `jsTrim` (ECMAScript `String.prototype.trim`).
-/

/-- JSON values as produced by the modelled `JSON.parse`.  Object members
keep their textual order; duplicate keys are resolved last-wins by
`getField`, matching JavaScript object construction. -/
inductive Json where
  | null
  | bool (b : Bool)
  | num (lexeme : String)
  | str (s : String)
  | arr (elems : List Json)
  | obj (members : List (String × Json))

/-- Whitespace accepted between JSON tokens (exactly tab, lf, cr, space). -/
def isJsonWs (c : Char) : Bool :=
  c == ' ' || c == '\t' || c == '\n' || c == '\r'

/-- Drop leading JSON whitespace. -/
def skipWs (l : List Char) : List Char := l.dropWhile isJsonWs

/-- Numeric value of a hexadecimal digit, if any. -/
def hexDigit? (c : Char) : Option Nat :=
  if '0' ≤ c ∧ c ≤ '9' then some (c.toNat - '0'.toNat)
  else if 'a' ≤ c ∧ c ≤ 'f' then some (c.toNat - 'a'.toNat + 10)
  else if 'A' ≤ c ∧ c ≤ 'F' then some (c.toNat - 'A'.toNat + 10)
  else none

/-- Reads a JSON string body (the opening quote already consumed),
returning the decoded characters and the input after the closing quote.
Unescaped control characters and invalid escapes are errors, as in
`JSON.parse`. -/
def parseStringBody : List Char → Option (List Char × List Char)
  | [] => none
  | '"' :: rest => some ([], rest)
  | '\\' :: 'u' :: a :: b :: c :: d :: rest =>
    match hexDigit? a, hexDigit? b, hexDigit? c, hexDigit? d with
    | some x, some y, some z, some w =>
      let n := ((x * 16 + y) * 16 + z) * 16 + w
      if 0xD800 ≤ n ∧ n ≤ 0xDBFF then
        match rest with
        | '\\' :: 'u' :: e :: f :: g :: h :: rest2 =>
          match hexDigit? e, hexDigit? f, hexDigit? g, hexDigit? h with
          | some p, some q, some r, some t =>
            let m := ((p * 16 + q) * 16 + r) * 16 + t
            if 0xDC00 ≤ m ∧ m ≤ 0xDFFF then
              (parseStringBody rest2).map (fun pr =>
                (Char.ofNat (0x10000 + (n - 0xD800) * 0x400 + (m - 0xDC00)) :: pr.1, pr.2))
            else none
          | _, _, _, _ => none
        | _ => none
      else if 0xDC00 ≤ n ∧ n ≤ 0xDFFF then none
      else (parseStringBody rest).map (fun pr => (Char.ofNat n :: pr.1, pr.2))
    | _, _, _, _ => none
  | '\\' :: e :: rest =>
    let dec : Option Char :=
      if e = '"' then some '"'
      else if e = '\\' then some '\\'
      else if e = '/' then some '/'
      else if e = 'b' then some (Char.ofNat 8)
      else if e = 'f' then some (Char.ofNat 12)
      else if e = 'n' then some '\n'
      else if e = 'r' then some '\r'
      else if e = 't' then some '\t'
      else none
    match dec with
    | some ch => (parseStringBody rest).map (fun pr => (ch :: pr.1, pr.2))
    | none => none
  | c :: rest =>
    if c.toNat < 0x20 then none
    else (parseStringBody rest).map (fun pr => (c :: pr.1, pr.2))

/-- Longest leading run of decimal digits. -/
def takeDigits (l : List Char) : List Char × List Char :=
  (l.takeWhile Char.isDigit, l.dropWhile Char.isDigit)

/-- Reads a JSON number lexeme (grammar of ECMA-404: optional minus,
integer part without leading zeros, optional fraction, optional
exponent).  Returns the lexeme and the rest of the input. -/
def parseNumber (l : List Char) : Option (List Char × List Char) :=
  let sign : List Char × List Char :=
    match l with
    | '-' :: r => (['-'], r)
    | _ => ([], l)
  match sign.2 with
  | [] => none
  | c :: r =>
    let ipart? : Option (List Char × List Char) :=
      if c = '0' then some ([c], r)
      else if c.isDigit then
        let d := takeDigits r
        some (c :: d.1, d.2)
      else none
    match ipart? with
    | none => none
    | some (ipart, afterInt) =>
      let frac? : Option (List Char × List Char) :=
        match afterInt with
        | '.' :: fr =>
          let d := takeDigits fr
          if d.1.isEmpty then none else some ('.' :: d.1, d.2)
        | _ => some ([], afterInt)
      match frac? with
      | none => none
      | some (fpart, afterFrac) =>
        let exp? : Option (List Char × List Char) :=
          match afterFrac with
          | e :: er =>
            if e = 'e' ∨ e = 'E' then
              let se : List Char × List Char :=
                match er with
                | '+' :: rr => (['+'], rr)
                | '-' :: rr => (['-'], rr)
                | _ => ([], er)
              let d := takeDigits se.2
              if d.1.isEmpty then none else some (e :: (se.1 ++ d.1), d.2)
            else some ([], afterFrac)
          | [] => some ([], afterFrac)
        match exp? with
        | none => none
        | some (epart, afterExp) =>
          some (sign.1 ++ ipart ++ fpart ++ epart, afterExp)

mutual

/-- Reads one JSON value (leading whitespace allowed), fuel-indexed. -/
def parseValue : Nat → List Char → Option (Json × List Char)
  | 0, _ => none
  | fuel + 1, l =>
    match skipWs l with
    | '{' :: r =>
      match skipWs r with
      | '}' :: r2 => some (Json.obj [], r2)
      | r2 => (parseMembers fuel r2).map (fun pr => (Json.obj pr.1, pr.2))
    | '[' :: r =>
      match skipWs r with
      | ']' :: r2 => some (Json.arr [], r2)
      | r2 => (parseElements fuel r2).map (fun pr => (Json.arr pr.1, pr.2))
    | '"' :: r => (parseStringBody r).map (fun pr => (Json.str ⟨pr.1⟩, pr.2))
    | 't' :: 'r' :: 'u' :: 'e' :: r => some (Json.bool true, r)
    | 'f' :: 'a' :: 'l' :: 's' :: 'e' :: r => some (Json.bool false, r)
    | 'n' :: 'u' :: 'l' :: 'l' :: r => some (Json.null, r)
    | l2 => (parseNumber l2).map (fun pr => (Json.num ⟨pr.1⟩, pr.2))

/-- Reads the members of a non-empty JSON object, up to and including the
closing brace. -/
def parseMembers : Nat → List Char → Option (List (String × Json) × List Char)
  | 0, _ => none
  | fuel + 1, l =>
    match skipWs l with
    | '"' :: r =>
      match parseStringBody r with
      | some (k, r1) =>
        match skipWs r1 with
        | ':' :: r2 =>
          match parseValue fuel r2 with
          | some (v, r3) =>
            match skipWs r3 with
            | ',' :: r4 =>
              (parseMembers fuel r4).map (fun pr => ((⟨k⟩, v) :: pr.1, pr.2))
            | '}' :: r4 => some ([(⟨k⟩, v)], r4)
            | _ => none
          | none => none
        | _ => none
      | none => none
    | _ => none

/-- Reads the elements of a non-empty JSON array, up to and including the
closing bracket. -/
def parseElements : Nat → List Char → Option (List Json × List Char)
  | 0, _ => none
  | fuel + 1, l =>
    match parseValue fuel l with
    | some (v, r) =>
      match skipWs r with
      | ',' :: r2 => (parseElements fuel r2).map (fun pr => (v :: pr.1, pr.2))
      | ']' :: r2 => some ([v], r2)
      | _ => none
    | none => none

end

/-- Model of `JSON.parse`: one value, then only whitespace may remain. -/
def parseJson (s : String) : Option Json :=
  match parseValue (2 * s.length + 2) s.data with
  | some (v, rest) => if (skipWs rest).isEmpty then some v else none
  | none => none

/-- Property lookup on a parsed object, last occurrence wins (JavaScript
objects overwrite duplicate keys). -/
def getField (j : Json) (k : String) : Option Json :=
  match j with
  | Json.obj ms => ((ms.filter (fun p => p.1 == k)).getLast?).map (fun p => p.2)
  | _ => none

/-- Keys of the `PlantInfo` record type in the source. -/
def sixKeys : List String :=
  ["name", "scientificName", "family", "origin", "characteristics", "uses"]

/-- Checks that a parsed value is an object carrying a string under each
of the six `PlantInfo` keys. -/
def isSixFieldRecord (j : Json) : Bool :=
  sixKeys.all (fun k =>
    match getField j k with
    | some (Json.str _) => true
    | _ => false)

/-- Backtick character, written via its code point. -/
def tk : Char := Char.ofNat 96

/-- Character list of the regex literal "```json". -/
def fenceJsonL : List Char := [tk, tk, tk, 'j', 's', 'o', 'n']

/-- Character list of a newline followed by "```". -/
def nlFenceL : List Char := ['\n', tk, tk, tk]

/-- Character list of "```". -/
def fenceL : List Char := [tk, tk, tk]

/-- One left-to-right pass of the global replacement
`replace(/```json\n?|\n?```/g, "")`: at each position the first
alternative ("```json" with an optional trailing newline) is tried before
the second (an optional newline followed by "```"); on a match the
scanner resumes after the matched text, produced text is never rescanned.
Fuel at least the length of the input makes the recursion total; every
step consumes at least one character. -/
def stripFencesAux : Nat → List Char → List Char
  | 0, s => s
  | _ + 1, [] => []
  | fuel + 1, c :: cs =>
    if c = tk then
      if fenceJsonL.isPrefixOf (c :: cs) then
        match (c :: cs).drop 7 with
        | '\n' :: r => stripFencesAux fuel r
        | r => stripFencesAux fuel r
      else if fenceL.isPrefixOf (c :: cs) then
        stripFencesAux fuel ((c :: cs).drop 3)
      else c :: stripFencesAux fuel cs
    else if c = '\n' then
      if nlFenceL.isPrefixOf (c :: cs) then
        stripFencesAux fuel ((c :: cs).drop 4)
      else c :: stripFencesAux fuel cs
    else c :: stripFencesAux fuel cs

/-- Whitespace removed by ECMAScript `String.prototype.trim` (WhiteSpace
and LineTerminator code points). -/
def jsWsChar (c : Char) : Bool :=
  c.toNat == 9 || c.toNat == 10 || c.toNat == 11 || c.toNat == 12 ||
  c.toNat == 13 || c.toNat == 32 || c.toNat == 0xA0 || c.toNat == 0x1680 ||
  (0x2000 ≤ c.toNat && c.toNat ≤ 0x200A) || c.toNat == 0x2028 ||
  c.toNat == 0x2029 || c.toNat == 0x202F || c.toNat == 0x205F ||
  c.toNat == 0x3000 || c.toNat == 0xFEFF

/-- Model of `String.prototype.trim` on character lists. -/
def jsTrim (l : List Char) : List Char :=
  ((l.dropWhile jsWsChar).reverse.dropWhile jsWsChar).reverse

/-- Model of `String.prototype.trim` on strings. -/
def jsTrimStr (s : String) : String := ⟨jsTrim s.data⟩

/-- Clean-up applied to the service response before parsing
(`identifyPlant`, lines 161-163): strip the code-fence patterns globally,
then trim surrounding whitespace. -/
def cleanResponse (s : String) : String :=
  ⟨jsTrim (stripFencesAux s.data.length s.data)⟩

/-- Checks that no character of the string is a backtick. -/
def noBacktickStr (s : String) : Bool := s.data.all (fun c => c != tk)

/-- Standard base64 alphabet. -/
def b64Alphabet : List Char :=
  "ABCDEFGHIJKLMNOPQRSTUVWXYZabcdefghijklmnopqrstuvwxyz0123456789+/".data

/-- Character of the base64 alphabet at a 6-bit index. -/
def b64Char (n : Nat) : Char := b64Alphabet.getD n 'A'

/-- Base64 encoding of a byte sequence, with padding. -/
def base64Encode : List Nat → List Char
  | [] => []
  | [a] => [b64Char (a / 4), b64Char (a % 4 * 16), '=', '=']
  | [a, b] => [b64Char (a / 4), b64Char (a % 4 * 16 + b / 16), b64Char (b % 16 * 4), '=']
  | a :: b :: c :: rest =>
    b64Char (a / 4) :: b64Char (a % 4 * 16 + b / 16) ::
    b64Char (b % 16 * 4 + c / 64) :: b64Char (c % 64) :: base64Encode rest

/-- An in-memory file: payload bytes, declared media type, file name
(mirrors the fields of the DOM `File` objects the component handles). -/
structure FileV where
  data : List Nat
  type : String
  name : String
  deriving DecidableEq

/-- Data URL produced by `FileReader.readAsDataURL`. -/
def dataURL (f : FileV) : String :=
  "data:" ++ f.type ++ ";base64," ++ (⟨base64Encode f.data⟩ : String)

/-- Error conditions of the specification's taxonomy.  In the source the
only signalling mechanism is a `console.error` call; the three
constructors `DeviceUnavailable`, `ServiceFailure` and
`MalformedResponse` correspond to the three `console.error` sites
("Error accessing the camera", "Error identifying plant", "Error parsing
plant info").  `InvalidInput` and `PreconditionViolation` appear in the
specification but have no signalling site in the code. -/
inductive Condition where
  | InvalidInput
  | DeviceUnavailable
  | PreconditionViolation
  | ServiceFailure
  | MalformedResponse
  deriving DecidableEq

/-- Outcome of the awaited inference call: the promise resolves with a
response text, or it rejects (network error, non-success response). -/
inductive ServiceOutcome where
  | resolved (responseText : String)
  | rejected

/-- Component state: the five `useState` hooks plus the device streams.
`streams` records every stream ever granted by `getUserMedia` together
with the liveness of its tracks (a `Bool` per track); `videoSrc` is the
index of the stream currently assigned to `videoRef.current.srcObject`
(the source never clears it).  Tracking all granted streams - not only
the referenced one - lets the embedding observe device tracks that the
code dropped without stopping. -/
structure AppState where
  file : Option FileV
  preview : Option String
  plantInfo : Option Json
  loading : Bool
  showCamera : Bool
  videoSrc : Option Nat
  streams : List (List Bool)

/-- Initial component state (all hooks at their `useState` defaults). -/
def initState : AppState :=
  { file := none, preview := none, plantInfo := none, loading := false,
    showCamera := false, videoSrc := none, streams := [] }

/-- Handler `handleImageSelection` (lines 54-59): stores the file and
regenerates the preview from it. -/
def handleImageSelection (f : FileV) (s : AppState) : AppState :=
  { s with file := some f, preview := some (dataURL f) }

/-- Handler `handleFileChange` (lines 47-52): if the event carries at
least one file, the first is handed to `handleImageSelection`; otherwise
nothing happens.  No property of the file is inspected. -/
def handleFileChange (files : List FileV) (s : AppState) : AppState :=
  match files with
  | [] => s
  | f :: _ => handleImageSelection f s

/-- Tracks of one stream are live when any of them is. -/
def streamLive (ts : List Bool) : Bool := ts.any id

/-- Number of granted streams that still hold a live track. -/
def liveStreamCount (s : AppState) : Nat := (s.streams.filter streamLive).length

/-- A camera session is open when the stream referenced by the video
element has a live track. -/
def sessionOpen (s : AppState) : Bool :=
  match s.videoSrc with
  | some i => streamLive (s.streams.getD i [])
  | none => false

/-- Handler `startCamera` (lines 61-75).  `supported` models the
`navigator.mediaDevices && getUserMedia` availability test; `outcome` is
the result of the awaited `getUserMedia` call: `some ts` a granted
stream with tracks `ts`, `none` a rejection (permission denied or no
capture device).  `setShowCamera(true)` runs unconditionally first; on
grant the stream is assigned to the video element; on rejection the
handler only logs (modelled as the `DeviceUnavailable` condition). -/
def startCamera (supported : Bool) (outcome : Option (List Bool)) (s : AppState) :
    AppState × Option Condition :=
  let s1 := { s with showCamera := true }
  if supported then
    match outcome with
    | some ts =>
      ({ s1 with streams := s1.streams ++ [ts], videoSrc := some s1.streams.length }, none)
    | none => (s1, some Condition.DeviceUnavailable)
  else (s1, none)

/-- Handler `stopCameraStream` (lines 104-109): stops every track of the
stream assigned to the video element; the `srcObject` reference itself is
not cleared, and no other stream is touched. -/
def stopCameraStream (s : AppState) : AppState :=
  match s.videoSrc with
  | some i =>
    { s with streams := s.streams.set i ((s.streams.getD i []).map (fun _ => false)) }
  | none => s

/-- Handler `captureImage` (lines 77-102).  `refsPresent` models the
`videoRef.current && canvasRef.current` test, `ctxOk` the 2d-context
test, `blob` the argument the browser passes to the `toBlob` callback.
Only when the blob is non-null does the handler build the captured file,
hand it to `handleImageSelection`, hide the camera UI and stop the
stream; on a null blob (or missing refs/context) it exits with the state
untouched. -/
def captureImage (refsPresent ctxOk : Bool) (blob : Option (List Nat)) (s : AppState) :
    AppState :=
  if refsPresent then
    if ctxOk then
      match blob with
      | some b =>
        stopCameraStream
          { handleImageSelection ⟨b, "image/jpeg", "captured_image.jpg"⟩ s with
            showCamera := false }
      | none => s
    else s
  else s

/-- Handler `identifyPlant` (lines 111-181).  With no file it returns at
once (no signal).  Otherwise `setLoading(true)` runs and the outer
`try` begins: `setupOk = false` models a synchronous throw of the setup
code, reaching the `catch` (log "Error identifying plant", modelled as
`ServiceFailure`; `plantInfo` cleared, `loading` cleared).  With the
setup done, the `reader.onload` async callback performs the awaited
inference call: if the promise rejects, the rejection escapes the
already-completed outer `try`/`catch` unhandled - no state update runs
and `loading` stays `true`.  If it resolves, the response text is
cleaned and `JSON.parse`d: success stores the parsed value wholesale
(no field validation), failure logs "Error parsing plant info"
(modelled as `MalformedResponse`) and clears `plantInfo`; `loading` is
cleared on both parse branches. -/
def identifyPlant (setupOk : Bool) (outcome : ServiceOutcome) (s : AppState) :
    AppState × Option Condition :=
  match s.file with
  | none => (s, none)
  | some _ =>
    let s1 := { s with loading := true }
    if setupOk then
      match outcome with
      | ServiceOutcome.rejected => (s1, none)
      | ServiceOutcome.resolved txt =>
        match parseJson (cleanResponse txt) with
        | some v => ({ s1 with plantInfo := some v, loading := false }, none)
        | none => ({ s1 with plantInfo := none, loading := false },
                   some Condition.MalformedResponse)
    else
      ({ s1 with plantInfo := none, loading := false }, some Condition.ServiceFailure)

/-- Sample picked file used by concrete scenarios. -/
def sampleFile : FileV := ⟨[137, 80, 78, 71], "image/png", "leaf.png"⟩

/-- State holding a current artifact (after a successful selection),
ready for an identification call. -/
def sWithFile : AppState := handleImageSelection sampleFile initState

/-- State with an open camera session: one granted stream with a live
track, referenced by the video element. -/
def sCam : AppState :=
  { sWithFile with showCamera := true, videoSrc := some 0, streams := [[true]] }

/-- Payload of the specification's worked example (section 8). -/
def rosePayload : String :=
  "\x7b\"name\":\"Rose\",\"scientificName\":\"Rosa\",\"family\":\"Rosaceae\",\"origin\":\"Asia\",\"characteristics\":\"Thorny shrub\",\"uses\":\"Ornamental\"\x7d"

/-- Parsed record of the worked example. -/
def roseObj : Json :=
  Json.obj [("name", Json.str "Rose"), ("scientificName", Json.str "Rosa"),
    ("family", Json.str "Rosaceae"), ("origin", Json.str "Asia"),
    ("characteristics", Json.str "Thorny shrub"), ("uses", Json.str "Ornamental")]

/-- Valid six-field JSON payload whose "name" value contains a bare
code-fence sequence. -/
def trickyPayload : String :=
  "\x7b\"name\":\"Rock```Daisy\",\"scientificName\":\"s\",\"family\":\"f\",\"origin\":\"o\",\"characteristics\":\"c\",\"uses\":\"u\"\x7d"

/-- Parsed record of `trickyPayload` taken alone. -/
def trickyObj : Json :=
  Json.obj [("name", Json.str "Rock```Daisy"), ("scientificName", Json.str "s"),
    ("family", Json.str "f"), ("origin", Json.str "o"),
    ("characteristics", Json.str "c"), ("uses", Json.str "u")]

/-- Record actually stored when `trickyPayload` arrives wrapped in code
fences: the fence sequence inside the value has been removed. -/
def trickyAlteredObj : Json :=
  Json.obj [("name", Json.str "RockDaisy"), ("scientificName", Json.str "s"),
    ("family", Json.str "f"), ("origin", Json.str "o"),
    ("characteristics", Json.str "c"), ("uses", Json.str "u")]

/-- Valid six-field JSON payload whose "name" value contains both fence
patterns of the replacement regex. -/
def mixedPayload : String :=
  "\x7b\"name\":\"x```y\",\"scientificName\":\"s\",\"family\":\"f\",\"origin\":\"o\",\"characteristics\":\"c\",\"uses\":\"u\"\x7d"

/-- Parsed record of `mixedPayload` taken alone. -/
def mixedObj : Json :=
  Json.obj [("name", Json.str "x```y"), ("scientificName", Json.str "s"),
    ("family", Json.str "f"), ("origin", Json.str "o"),
    ("characteristics", Json.str "c"), ("uses", Json.str "u")]

/-- Record actually stored when `mixedPayload` arrives wrapped in code
fences. -/
def mixedAlteredObj : Json :=
  Json.obj [("name", Json.str "xy"), ("scientificName", Json.str "s"),
    ("family", Json.str "f"), ("origin", Json.str "o"),
    ("characteristics", Json.str "c"), ("uses", Json.str "u")]

/-- Non-image, empty file used to probe the absent validation of
`handleFileChange`. -/
def textFile : FileV := ⟨[], "text/plain", "notes.txt"⟩

/-- Stripping the empty input yields the empty output at any fuel. -/
theorem stripAux_nil (k : Nat) : stripFencesAux k [] = [] := by
  cases k <;> rfl

/-- A list of tracks mapped to stopped has no live track. -/
theorem any_map_false (ts : List Bool) : (ts.map (fun _ => false)).any id = false := by
  induction ts with
  | nil => rfl
  | cons h t ih => simp [ih]

/-- Reading back the position just written by `List.set`. -/
theorem get?_set_self' {α : Type} (l : List α) (i : Nat) (a : α) :
    (l.set i a).get? i = (l.get? i).map (fun _ => a) := by
  induction l generalizing i with
  | nil => simp
  | cons h t ih =>
    cases i with
    | zero => simp
    | succ n => simpa using ih n

/-- After `stopCameraStream` the referenced stream has no live track, so
no camera session is open. -/
theorem sessionOpen_stop (s : AppState) : sessionOpen (stopCameraStream s) = false := by
  unfold sessionOpen stopCameraStream
  cases h : s.videoSrc with
  | none => simp [h]
  | some i =>
    simp only [h, List.getD]
    rw [get?_set_self']
    cases h2 : s.streams.get? i with
    | none => simp [streamLive]
    | some ts => simp [streamLive, any_map_false]

/-- Write of the backtick-free test as beq, in the orientation
`isPrefixOf` produces. -/
theorem beq_tk_false {c : Char} (h : c ≠ tk) : (tk == c) = false := by
  cases hb : tk == c with
  | false => rfl
  | true => exact absurd (eq_of_beq hb).symm h

/-- Scanning a backtick-free text followed by a closing fence removes
exactly the closing fence: no replacement-pattern occurrence can start
inside the text. -/
theorem stripAux_plain (l : List Char) :
    ∀ fuel : Nat, (∀ x ∈ l, x ≠ tk) → l.length + 4 ≤ fuel →
    stripFencesAux fuel (l ++ nlFenceL) = l := by
  induction l with
  | nil =>
    intro fuel _ hf
    obtain ⟨k, rfl⟩ : ∃ k, fuel = k + 1 := ⟨fuel - 1, by omega⟩
    rw [List.nil_append]
    show stripFencesAux (k + 1) ('\n' :: [tk, tk, tk]) = []
    simp only [stripFencesAux]
    rw [if_neg (by decide)]
    rw [if_pos trivial, if_pos (by decide)]
    simp [stripAux_nil]
  | cons c cs ih =>
    intro fuel h hf
    obtain ⟨k, rfl⟩ : ∃ k, fuel = k + 1 := ⟨fuel - 1, by omega⟩
    have hc : c ≠ tk := h c (List.mem_cons_self c cs)
    have hcs : ∀ x ∈ cs, x ≠ tk := fun x hx => h x (List.mem_cons_of_mem c hx)
    have hk : cs.length + 4 ≤ k := by simp only [List.length_cons] at hf; omega
    rw [List.cons_append]
    simp only [stripFencesAux]
    rw [if_neg hc]
    by_cases hcn : c = '\n'
    · subst hcn
      rw [if_pos rfl]
      have hpre : nlFenceL.isPrefixOf ('\n' :: (cs ++ nlFenceL)) = false := by
        cases cs with
        | nil => rw [List.nil_append]; decide
        | cons c2 cs2 =>
          have hc2 : c2 ≠ tk := hcs c2 (List.mem_cons_self c2 cs2)
          simp only [nlFenceL, List.cons_append, List.isPrefixOf]
          simp [beq_tk_false hc2]
      rw [if_neg (by simp [hpre])]
      rw [ih k hcs hk]
    · rw [if_neg hcn]
      rw [ih k hcs hk]

/-- Scanning an opening fence, a backtick-free payload and a closing
fence yields exactly the payload. -/
theorem stripAux_wrap (l : List Char) (fuel : Nat) (h : ∀ x ∈ l, x ≠ tk)
    (hf : l.length + 12 ≤ fuel) :
    stripFencesAux fuel (fenceJsonL ++ ('\n' :: (l ++ nlFenceL))) = l := by
  obtain ⟨k, rfl⟩ : ∃ k, fuel = k + 1 := ⟨fuel - 1, by omega⟩
  simp only [fenceJsonL, List.cons_append, List.nil_append]
  simp only [stripFencesAux]
  rw [if_pos trivial, if_pos (by simp [fenceJsonL, List.isPrefixOf])]
  simp only [List.drop_succ_cons, List.drop_zero]
  exact stripAux_plain l k h (by omega)

/-- Length of a fence-wrapped payload. -/
theorem fenceLen :
    ∀ l : List Char, (fenceJsonL ++ ('\n' :: (l ++ nlFenceL))).length = l.length + 12 := by
  intro l
  simp [fenceJsonL, nlFenceL, List.length_append]

/-- Cleaning a response that wraps a backtick-free payload in the
code-fence markers yields exactly the trimmed payload. -/
theorem cleanResponse_wrap (j : String) (h : noBacktickStr j = true) :
    cleanResponse ("```json\n" ++ j ++ "\n```") = jsTrimStr j := by
  have h' : ∀ x ∈ j.data, x ≠ tk := by
    simpa [noBacktickStr, List.all_eq_true] using h
  have hdata : ("```json\n" ++ j ++ "\n```").data
      = fenceJsonL ++ ('\n' :: (j.data ++ nlFenceL)) := by
    rw [String.data_append, String.data_append]
    have h1 : "```json\n".data = fenceJsonL ++ ['\n'] := rfl
    have h2 : "\n```".data = nlFenceL := rfl
    rw [h1, h2]
    simp [List.append_assoc]
  unfold cleanResponse jsTrimStr
  rw [hdata, fenceLen j.data]
  rw [stripAux_wrap j.data (j.data.length + 12) h' (by omega)]

/-- Releasing the camera stream does not touch the stored artifact. -/
theorem stop_file (s : AppState) : (stopCameraStream s).file = s.file := by
  unfold stopCameraStream; cases s.videoSrc <;> rfl

/-- Releasing the camera stream does not touch the preview. -/
theorem stop_preview (s : AppState) : (stopCameraStream s).preview = s.preview := by
  unfold stopCameraStream; cases s.videoSrc <;> rfl

/-- Claim C1, refuted as stated: a response whose cleaned form is valid
JSON but misses five of the six fields is not turned into "no result"
with a Failed state - `JSON.parse` succeeds, the partially-populated
record is stored, `loading` is cleared and no condition is signalled
(the code casts the parsed value without any field validation). -/
theorem c1_claim_counterexample :
    (identifyPlant true (ServiceOutcome.resolved "\x7b\"name\":\"Fern\"\x7d") sWithFile).1.plantInfo
      = some (Json.obj [("name", Json.str "Fern")]) ∧
    getField (Json.obj [("name", Json.str "Fern")]) "scientificName" = none ∧
    (identifyPlant true (ServiceOutcome.resolved "\x7b\"name\":\"Fern\"\x7d") sWithFile).1.loading = false ∧
    (identifyPlant true (ServiceOutcome.resolved "\x7b\"name\":\"Fern\"\x7d") sWithFile).2 = none :=
  ⟨rfl, rfl, rfl, rfl⟩

/-- Claim C1 (amended): with an artifact present, a response whose
cleaned form is not parseable as JSON yields explicitly no result
(plantInfo cleared, never partially assigned), RequestState Failed
(loading cleared, no record) and the `MalformedResponse` condition;
a response whose cleaned form is parseable JSON is stored wholesale -
even when some of the six fields are missing. -/
theorem c1_amended_thm (txt : String) (s : AppState) (f : FileV) (hf : s.file = some f) :
    (parseJson (cleanResponse txt) = none →
      identifyPlant true (ServiceOutcome.resolved txt) s
        = ({ s with loading := false, plantInfo := none }, some Condition.MalformedResponse)) ∧
    (∀ v, parseJson (cleanResponse txt) = some v →
      identifyPlant true (ServiceOutcome.resolved txt) s
        = ({ s with loading := false, plantInfo := some v }, none)) := by
  constructor
  · intro hp
    simp [identifyPlant, hf, hp]
  · intro v hp
    simp [identifyPlant, hf, hp]

/-- Witness for the amended claim C1 at a concrete unparseable
response. -/
theorem c1_amended_witness :
    identifyPlant true (ServiceOutcome.resolved "The image is too blurry.") sWithFile
      = ({ sWithFile with loading := false, plantInfo := none }, some Condition.MalformedResponse) :=
  (c1_amended_thm "The image is too blurry." sWithFile sampleFile rfl).1 rfl

/-- Claim C2, where the code contradicts its evident intent: on a
rejected inference call the `catch` block written to handle
identification failures is unreachable (the rejection happens inside the
`reader.onload` async callback, after the surrounding `try` completed),
so the state keeps `loading = true` - RequestState stays InFlight
forever - no `ServiceFailure` condition is produced and `plantInfo` is
untouched, instead of the claimed transition to Failed. -/
theorem c2_divergence_thm :
    identifyPlant true ServiceOutcome.rejected sWithFile
      = ({ sWithFile with loading := true }, none) ∧
    ({ sWithFile with loading := true } : AppState).loading = true :=
  ⟨rfl, rfl⟩

/-- Claim C3, refuted as stated: starting from a state with an open
camera session, the capture path on which the snapshot yields no blob
returns with the state unchanged - the session stays open, the device
tracks are not stopped (the code only calls `stopCameraStream` inside
the `if (blob)` branch of the `toBlob` callback). -/
theorem c3_claim_counterexample :
    sessionOpen sCam = true ∧
    captureImage true true none sCam = sCam ∧
    sessionOpen (captureImage true true none sCam) = true :=
  ⟨rfl, rfl, rfl⟩

/-- Claim C3 (amended): `captureFromSession` releases the camera session
on the successful path - after a capture that produces a blob no session
is open - but on the failure path where the snapshot yields no blob it
exits with the state (and hence the open session) untouched. -/
theorem c3_amended_thm (s : AppState) (b : List Nat) :
    sessionOpen (captureImage true true (some b) s) = false ∧
    captureImage true true none s = s := by
  refine ⟨?_, rfl⟩
  exact sessionOpen_stop _

/-- Claim C4, refuted as stated: a response wrapping a valid six-field
JSON object in code fences, whose "name" value itself contains a bare
code-fence sequence, is parsed into a record whose "name" value differs
from the JSON's value - the global replacement altered the value before
parsing. -/
theorem c4_claim_counterexample :
    parseJson trickyPayload = some trickyObj ∧
    isSixFieldRecord trickyObj = true ∧
    getField trickyObj "name" = some (Json.str "Rock```Daisy") ∧
    (identifyPlant true (ServiceOutcome.resolved ("```json\n" ++ trickyPayload ++ "\n```")) sWithFile).1.plantInfo
      = some trickyAlteredObj ∧
    getField trickyAlteredObj "name" = some (Json.str "RockDaisy") ∧
    ("RockDaisy" : String) ≠ "Rock```Daisy" :=
  ⟨rfl, rfl, rfl, rfl, rfl, by decide⟩

/-- Claim C4 (amended): for every response text that wraps a payload in
the code-fence markers, provided the payload contains no backtick and
its whitespace-trimmed form parses as a JSON object carrying the six
string fields, `identify` strips the fences and surrounding whitespace
and stores exactly that parsed record - all six fields equal the JSON's
values - with loading cleared and no error condition (RequestState
Succeeded). -/
theorem c4_amended_thm (j : String) (v : Json) (s : AppState) (f : FileV)
    (hf : s.file = some f) (hbt : noBacktickStr j = true)
    (hp : parseJson (jsTrimStr j) = some v) (_hsix : isSixFieldRecord v = true) :
    identifyPlant true (ServiceOutcome.resolved ("```json\n" ++ j ++ "\n```")) s
      = ({ s with loading := false, plantInfo := some v }, none) := by
  have hc := cleanResponse_wrap j hbt
  simp [identifyPlant, hf, hc, hp]

/-- Witness for the amended claim C4 at the specification's worked
example (the Rose record). -/
theorem c4_amended_witness :
    identifyPlant true (ServiceOutcome.resolved ("```json\n" ++ rosePayload ++ "\n```")) sWithFile
      = ({ sWithFile with loading := false, plantInfo := some roseObj }, none) :=
  c4_amended_thm rosePayload roseObj sWithFile sampleFile rfl rfl rfl rfl

/-- Claim C5, refuted as stated: calling identify with a null artifact
does not raise a `PreconditionViolation` - the handler returns at once
with the state unchanged and no condition at all. -/
theorem c5_claim_counterexample :
    identifyPlant true ServiceOutcome.rejected initState = (initState, none) ∧
    (identifyPlant true ServiceOutcome.rejected initState).2 ≠ some Condition.PreconditionViolation :=
  ⟨rfl, by decide⟩

/-- Claim C5 (amended): identify with a null artifact returns silently
(no state change, no condition); the handler performs no InFlight check
of its own - its behaviour is independent of the `loading` flag, so a
call made while a request is in flight proceeds exactly as one made
after resolution (overlap prevention exists only in the UI's disabled
button); and with an artifact present a call is always accepted and runs
to its parse outcome. -/
theorem c5_amended_thm (setupOk : Bool) (o : ServiceOutcome) (s : AppState) :
    (s.file = none → identifyPlant setupOk o s = (s, none)) ∧
    (∀ f, s.file = some f → ∀ b b' : Bool,
      identifyPlant setupOk o { s with loading := b }
        = identifyPlant setupOk o { s with loading := b' }) ∧
    (∀ f t, s.file = some f →
      (identifyPlant true (ServiceOutcome.resolved t) s).1
        = { s with loading := false, plantInfo := parseJson (cleanResponse t) }) := by
  refine ⟨?_, ?_, ?_⟩
  · intro h; simp [identifyPlant, h]
  · intro f h b b'
    simp [identifyPlant, h]
  · intro f t h
    cases hp : parseJson (cleanResponse t) with
    | none => simp [identifyPlant, h, hp]
    | some v => simp [identifyPlant, h, hp]

/-- Witness for the amended claim C5: the null-artifact branch at the
initial state, and an accepted call at a state holding an artifact. -/
theorem c5_amended_witness :
    identifyPlant true ServiceOutcome.rejected initState = (initState, none) ∧
    (identifyPlant true (ServiceOutcome.resolved "null") sWithFile).1
      = { sWithFile with loading := false, plantInfo := parseJson (cleanResponse "null") } :=
  ⟨(c5_amended_thm true ServiceOutcome.rejected initState).1 rfl,
   (c5_amended_thm true (ServiceOutcome.resolved "null") sWithFile).2.2 sampleFile "null" rfl⟩

/-- Claim C6, refuted as stated: an empty file of media type text/plain
is not rejected - `handleFileChange` inspects no property of the file,
so the invalid input replaces the prior artifact (the prior state is not
left untouched, and no `InvalidInput` condition exists in the code). -/
theorem c6_claim_counterexample :
    (handleFileChange [textFile] sWithFile).file = some textFile ∧
    sWithFile.file ≠ some textFile ∧
    textFile.data = [] ∧
    textFile.type = "text/plain" :=
  ⟨rfl, by decide, rfl, rfl⟩

/-- Claim C6 (amended): `selectFromPicker` validates only that the event
carries a file at all - with no file the state is unchanged and nothing
is signalled; with a file present, whatever its media type or size, the
artifact is replaced and the preview regenerated through
`handleImageSelection`. -/
theorem c6_amended_thm (files : List FileV) (s : AppState) :
    (files = [] → handleFileChange files s = s) ∧
    (∀ f rest, files = f :: rest → handleFileChange files s = handleImageSelection f s) := by
  constructor
  · intro h; subst h; rfl
  · intro f rest h; subst h; rfl

/-- Witness for the amended claim C6 at a concrete empty and a concrete
singleton file list. -/
theorem c6_amended_witness :
    handleFileChange [] sWithFile = sWithFile ∧
    handleFileChange [textFile] sWithFile = handleImageSelection textFile sWithFile :=
  ⟨(c6_amended_thm [] sWithFile).1 rfl,
   (c6_amended_thm [textFile] sWithFile).2 textFile [] rfl⟩

/-- Claim C7: when device media access is denied or no capture device
exists (the awaited `getUserMedia` call rejects), `openCamera` signals
the `DeviceUnavailable` condition (the catch block's error report) and,
when no camera session was open before the call, none is open after it -
only the camera UI flag has changed. -/
theorem c7_thm (s : AppState) :
    startCamera true none s = ({ s with showCamera := true }, some Condition.DeviceUnavailable) ∧
    (sessionOpen s = false → sessionOpen (startCamera true none s).1 = false) := by
  constructor
  · rfl
  · intro h
    exact h

/-- Witness for claim C7 at a concrete state with no open session. -/
theorem c7_witness :
    startCamera true none sWithFile
      = ({ sWithFile with showCamera := true }, some Condition.DeviceUnavailable) ∧
    sessionOpen (startCamera true none sWithFile).1 = false :=
  ⟨(c7_thm sWithFile).1, (c7_thm sWithFile).2 rfl⟩

/-- Claim C8, refuted as stated: invoking `openCamera` a second time
while a session is already open leaves two granted streams whose device
tracks are all still live - the first stream is dropped from the video
element without its tracks being stopped. -/
theorem c8_claim_counterexample :
    sessionOpen (startCamera true (some [true]) initState).1 = true ∧
    liveStreamCount ((startCamera true (some [true]) ((startCamera true (some [true]) initState).1)).1) = 2 :=
  ⟨rfl, rfl⟩

/-- Claim C8 (amended): the video element references at most one stream
(the newly granted one) and at most one ImageArtifact is current (each
selection wholesale-replaces the single slot); but every grant adds one
more live stream to the set of granted streams without stopping the
previous one, so live device-track sets accumulate across re-opens. -/
theorem c8_amended_thm (s : AppState) (ts : List Bool) (f : FileV) :
    (startCamera true (some ts) s).1.videoSrc = some s.streams.length ∧
    (handleImageSelection f s).file = some f ∧
    liveStreamCount (startCamera true (some ts) s).1
      = liveStreamCount s + (if streamLive ts then 1 else 0) := by
  refine ⟨rfl, rfl, ?_⟩
  simp [liveStreamCount, startCamera, List.filter_append]
  cases h : streamLive ts <;> simp [h]

/-- Claim C9: the clean-up removes the code-fence patterns everywhere in
the response - "```json" with an optional following newline and "```"
with an optional preceding newline, also in the middle of the text, not
only as a surrounding wrapper - and consequently a six-field response
whose "name" value contains a fence sequence is stored with that value
altered (the fences stripped out of it) before parsing. -/
theorem c9_thm :
    cleanResponse "a```json\nb" = "ab" ∧
    cleanResponse "a```jsonb" = "ab" ∧
    cleanResponse "a\n```b" = "ab" ∧
    cleanResponse "a```b" = "ab" ∧
    parseJson mixedPayload = some mixedObj ∧
    getField mixedObj "name" = some (Json.str "x```y") ∧
    (identifyPlant true (ServiceOutcome.resolved ("```json\n" ++ mixedPayload ++ "\n```")) sWithFile).1.plantInfo
      = some mixedAlteredObj ∧
    getField mixedAlteredObj "name" = some (Json.str "xy") :=
  ⟨rfl, rfl, rfl, rfl, rfl, rfl, rfl, rfl⟩

/-- Claim C10: every artifact produced by the camera-capture path is the
file built from the snapshot bytes with declared media type image/jpeg
and name captured_image.jpg, whatever the frame contents, and it becomes
the current artifact through the same `handleImageSelection` path as a
picker selection (identical stored file and regenerated preview). -/
theorem c10_thm (s : AppState) (b : List Nat) :
    (captureImage true true (some b) s).file
      = some (⟨b, "image/jpeg", "captured_image.jpg"⟩ : FileV) ∧
    (captureImage true true (some b) s).file
      = (handleImageSelection (⟨b, "image/jpeg", "captured_image.jpg"⟩ : FileV) s).file ∧
    (captureImage true true (some b) s).preview
      = (handleImageSelection (⟨b, "image/jpeg", "captured_image.jpg"⟩ : FileV) s).preview := by
  refine ⟨?_, ?_, ?_⟩
  · show (stopCameraStream _).file = _
    rw [stop_file]
    rfl
  · show (stopCameraStream _).file = _
    rw [stop_file]
  · show (stopCameraStream _).preview = _
    rw [stop_preview]
